import Mathlib

/-
Verification of the CMIS transceiver management driver
(sonic_platform_base/sonic_xcvr/api/public/cmis.py, class CmisApi).

The Python class is shallowly embedded: every register read that a method
performs is passed in explicitly as a value (Option-typed where the read can
fail and return None), and the method body is translated statement by
statement.  Machine registers hold nonnegative Python ints, modelled as Nat;
analog quantities read from the EEPROM are modelled as rationals.
-/

/-- NUM_CHANNELS of CmisApi: the fixed host lane width (8). -/
def NUM_CHANNELS : Nat := 8

/- ---------------------------------------------------------------------
   Bit manipulation helpers.

   Python computes data | (1 << lane) to set a bit and
   data & ~(1 << lane) to clear one.  On nonnegative Python ints the
   latter is exactly bitwise and-not, i.e. Nat.ldiff data (1 <<< lane).
   --------------------------------------------------------------------- -/

lemma one_shiftLeft_eq (i : Nat) : (1 <<< i) = 2 ^ i := by
  simp [Nat.shiftLeft_eq]

lemma mask_and_eq_zero (ch lane : Nat) :
    ((1 <<< lane) &&& ch == 0) = !ch.testBit lane := by
  rw [one_shiftLeft_eq, Nat.two_pow_and]
  rcases h : ch.testBit lane with _ | _
  · simp [h]
  · simp only [h, Bool.toNat_true, mul_one, Bool.not_true, beq_eq_false_iff_ne, ne_eq]
    positivity

lemma testBit_or_mask (d i j : Nat) :
    (d ||| (1 <<< i)).testBit j = (if j = i then true else d.testBit j) := by
  by_cases h : j = i
  · subst h
    simp [Nat.testBit_or, Nat.testBit_shiftLeft]
  · rw [Nat.testBit_or, one_shiftLeft_eq,
      Nat.testBit_two_pow_of_ne (fun hc => h hc.symm), Bool.or_false]
    simp [h]

lemma testBit_ldiff_mask (d i j : Nat) :
    (Nat.ldiff d (1 <<< i)).testBit j = (if j = i then false else d.testBit j) := by
  by_cases h : j = i
  · subst h
    simp [Nat.testBit_ldiff, Nat.testBit_shiftLeft]
  · rw [Nat.testBit_ldiff, one_shiftLeft_eq,
      Nat.testBit_two_pow_of_ne (fun hc => h hc.symm)]
    simp [h]

/- ---------------------------------------------------------------------
   set_datapath_init / set_datapath_deinit (cmis.py lines 2513-2557).

   Both methods read CMIS_MAJOR_REVISION and DATAPATH_DEINIT_FIELD, then
   loop over lanes 0..NUM_CHANNELS-1, skipping each lane whose bit is not
   set in the channel mask, and finally write the modified value back to
   DATAPATH_DEINIT_FIELD.  The value written back is the result here; the
   two register reads are the arguments cmis_major and data.
   --------------------------------------------------------------------- -/

/-- Loop body of set_datapath_init: skip lanes not selected by channel;
for CMIS major revision greater or equal 4 clear the lane bit, for
earlier revisions set it. -/
def dp_init_step (cmis_major channel d lane : Nat) : Nat :=
  if (1 <<< lane) &&& channel == 0 then d
  else if 4 ≤ cmis_major then Nat.ldiff d (1 <<< lane)
  else d ||| (1 <<< lane)

/-- set_datapath_init of CmisApi: the value written back to
DATAPATH_DEINIT_FIELD, given the CMIS major revision read, the current
register value read, and the channel (lane bitmask) argument. -/
def set_datapath_init (cmis_major data channel : Nat) : Nat :=
  (List.range NUM_CHANNELS).foldl (dp_init_step cmis_major channel) data

/-- Loop body of set_datapath_deinit: skip lanes not selected by channel;
for CMIS major revision greater or equal 4 set the lane bit, for earlier
revisions clear it. -/
def dp_deinit_step (cmis_major channel d lane : Nat) : Nat :=
  if (1 <<< lane) &&& channel == 0 then d
  else if 4 ≤ cmis_major then d ||| (1 <<< lane)
  else Nat.ldiff d (1 <<< lane)

/-- set_datapath_deinit of CmisApi: the value written back to
DATAPATH_DEINIT_FIELD. -/
def set_datapath_deinit (cmis_major data channel : Nat) : Nat :=
  (List.range NUM_CHANNELS).foldl (dp_deinit_step cmis_major channel) data

lemma dp_init_step_testBit (maj ch d lane j : Nat) :
    (dp_init_step maj ch d lane).testBit j =
      if j = lane ∧ ch.testBit lane = true then (if 4 ≤ maj then false else true)
      else d.testBit j := by
  unfold dp_init_step
  rw [mask_and_eq_zero]
  rcases hbit : ch.testBit lane with _ | _
  · simp
  · rw [Bool.not_true, if_neg (by simp)]
    by_cases hmaj : 4 ≤ maj
    · rw [if_pos hmaj, testBit_ldiff_mask]
      by_cases hj : j = lane
      · subst hj
        rw [if_pos rfl, if_pos ⟨rfl, rfl⟩, if_pos hmaj]
      · rw [if_neg hj, if_neg (fun hc => hj hc.1)]
    · rw [if_neg hmaj, testBit_or_mask]
      by_cases hj : j = lane
      · subst hj
        rw [if_pos rfl, if_pos ⟨rfl, rfl⟩, if_neg hmaj]
      · rw [if_neg hj, if_neg (fun hc => hj hc.1)]

lemma dp_deinit_step_testBit (maj ch d lane j : Nat) :
    (dp_deinit_step maj ch d lane).testBit j =
      if j = lane ∧ ch.testBit lane = true then (if 4 ≤ maj then true else false)
      else d.testBit j := by
  unfold dp_deinit_step
  rw [mask_and_eq_zero]
  rcases hbit : ch.testBit lane with _ | _
  · simp
  · rw [Bool.not_true, if_neg (by simp)]
    by_cases hmaj : 4 ≤ maj
    · rw [if_pos hmaj, testBit_or_mask]
      by_cases hj : j = lane
      · subst hj
        rw [if_pos rfl, if_pos ⟨rfl, rfl⟩, if_pos hmaj]
      · rw [if_neg hj, if_neg (fun hc => hj hc.1)]
    · rw [if_neg hmaj, testBit_ldiff_mask]
      by_cases hj : j = lane
      · subst hj
        rw [if_pos rfl, if_pos ⟨rfl, rfl⟩, if_neg hmaj]
      · rw [if_neg hj, if_neg (fun hc => hj hc.1)]

lemma dp_init_foldl_testBit (maj ch : Nat) (lanes : List Nat) (d j : Nat) :
    ((lanes.foldl (dp_init_step maj ch) d).testBit j) =
      if j ∈ lanes ∧ ch.testBit j = true then (if 4 ≤ maj then false else true)
      else d.testBit j := by
  induction lanes generalizing d with
  | nil => simp
  | cons l ls ih =>
    rw [List.foldl_cons, ih]
    by_cases hmem : j ∈ ls ∧ ch.testBit j = true
    · simp [hmem, List.mem_cons, hmem.1, hmem.2]
    · rw [if_neg hmem, dp_init_step_testBit]
      by_cases hl : j = l ∧ ch.testBit l = true
      · have hj : ch.testBit j = true := hl.1 ▸ hl.2
        simp [hl, List.mem_cons, hl.1, hj]
      · rw [if_neg hl]
        have : ¬(j ∈ l :: ls ∧ ch.testBit j = true) := by
          intro hc
          rcases List.mem_cons.mp hc.1 with h1 | h1
          · exact hl ⟨h1, h1 ▸ hc.2⟩
          · exact hmem ⟨h1, hc.2⟩
        rw [if_neg this]

lemma dp_deinit_foldl_testBit (maj ch : Nat) (lanes : List Nat) (d j : Nat) :
    ((lanes.foldl (dp_deinit_step maj ch) d).testBit j) =
      if j ∈ lanes ∧ ch.testBit j = true then (if 4 ≤ maj then true else false)
      else d.testBit j := by
  induction lanes generalizing d with
  | nil => simp
  | cons l ls ih =>
    rw [List.foldl_cons, ih]
    by_cases hmem : j ∈ ls ∧ ch.testBit j = true
    · simp [hmem, List.mem_cons, hmem.1, hmem.2]
    · rw [if_neg hmem, dp_deinit_step_testBit]
      by_cases hl : j = l ∧ ch.testBit l = true
      · have hj : ch.testBit j = true := hl.1 ▸ hl.2
        simp [hl, List.mem_cons, hl.1, hj]
      · rw [if_neg hl]
        have : ¬(j ∈ l :: ls ∧ ch.testBit j = true) := by
          intro hc
          rcases List.mem_cons.mp hc.1 with h1 | h1
          · exact hl ⟨h1, h1 ▸ hc.2⟩
          · exact hmem ⟨h1, hc.2⟩
        rw [if_neg this]

lemma set_datapath_init_testBit (maj data ch j : Nat) :
    (set_datapath_init maj data ch).testBit j =
      if j < NUM_CHANNELS ∧ ch.testBit j = true then (if 4 ≤ maj then false else true)
      else data.testBit j := by
  rw [set_datapath_init, dp_init_foldl_testBit]
  simp [List.mem_range]

lemma set_datapath_deinit_testBit (maj data ch j : Nat) :
    (set_datapath_deinit maj data ch).testBit j =
      if j < NUM_CHANNELS ∧ ch.testBit j = true then (if 4 ≤ maj then true else false)
      else data.testBit j := by
  rw [set_datapath_deinit, dp_deinit_foldl_testBit]
  simp [List.mem_range]

/-- Claim C2: for every lane mask and starting register value, with CMIS
major revision at least 4 set_datapath_init clears the control bit of each
selected lane and set_datapath_deinit sets it, while with CMIS major
revision 3 set_datapath_init sets the bit and set_datapath_deinit clears
it. -/
theorem claim_C2_datapath_polarity (cmis_major data channel lane : Nat)
    (hlane : lane < NUM_CHANNELS) (hsel : channel.testBit lane = true) :
    (4 ≤ cmis_major →
      (set_datapath_init cmis_major data channel).testBit lane = false ∧
      (set_datapath_deinit cmis_major data channel).testBit lane = true) ∧
    (cmis_major = 3 →
      (set_datapath_init cmis_major data channel).testBit lane = true ∧
      (set_datapath_deinit cmis_major data channel).testBit lane = false) := by
  constructor
  · intro hmaj
    rw [set_datapath_init_testBit, set_datapath_deinit_testBit]
    simp [hlane, hsel, hmaj]
  · intro hmaj
    subst hmaj
    rw [set_datapath_init_testBit, set_datapath_deinit_testBit]
    simp [hlane, hsel]

/-- Concrete instance of claim C2: CMIS major 3, mask 0b101 = 5, lane 2,
starting from register value 0: init sets bit 2 and deinit clears it. -/
theorem claim_C2_witness :
    ((2 : Nat) < NUM_CHANNELS ∧ (5 : Nat).testBit 2 = true) ∧
    ((4 ≤ 3 →
      (set_datapath_init 3 0 5).testBit 2 = false ∧
      (set_datapath_deinit 3 0 5).testBit 2 = true) ∧
    ((3 : Nat) = 3 →
      (set_datapath_init 3 0 5).testBit 2 = true ∧
      (set_datapath_deinit 3 0 5).testBit 2 = false)) :=
  ⟨⟨by decide, by decide⟩, claim_C2_datapath_polarity 3 0 5 2 (by decide) (by decide)⟩

/-- Claim C10: set_datapath_init and set_datapath_deinit write back a value
that agrees with the value read on every bit position that is not a lane
selected by the mask (including all positions at or above the lane width),
so unselected lanes are preserved unchanged. -/
theorem claim_C10_datapath_frame (cmis_major data channel lane : Nat)
    (h : lane < NUM_CHANNELS → channel.testBit lane = false) :
    (set_datapath_init cmis_major data channel).testBit lane = data.testBit lane ∧
    (set_datapath_deinit cmis_major data channel).testBit lane = data.testBit lane := by
  rw [set_datapath_init_testBit, set_datapath_deinit_testBit]
  have hcond : ¬(lane < NUM_CHANNELS ∧ channel.testBit lane = true) := by
    intro hc
    have := h hc.1
    rw [this] at hc
    exact absurd hc.2 (by simp)
  rw [if_neg hcond, if_neg hcond]
  exact ⟨rfl, rfl⟩

/-- Concrete instance of claim C10: mask 5 does not select lane 1, so both
operations preserve bit 1 of the starting value 7. -/
theorem claim_C10_witness :
    ((1 : Nat) < NUM_CHANNELS → (5 : Nat).testBit 1 = false) ∧
    ((set_datapath_init 4 7 5).testBit 1 = (7 : Nat).testBit 1 ∧
     (set_datapath_deinit 4 7 5).testBit 1 = (7 : Nat).testBit 1) :=
  ⟨fun _ => by decide, claim_C10_datapath_frame 4 7 5 1 (fun _ => by decide)⟩

/- ---------------------------------------------------------------------
   Flat-memory gate and the page-dependent getters built on it
   (cmis.py lines 128-131, 599-607, 308-317, 1003-1014, 734-755).
   --------------------------------------------------------------------- -/

/-- is_flat_memory of CmisApi (cmis.py lines 599-601): the Python
expression read(FLAT_MEM_FIELD) is not False, where the read result is
None on failure.  A failed read therefore classifies the module as flat
memory. -/
def is_flat_memory (flat_mem_read : Option Bool) : Bool :=
  flat_mem_read != some false

/-- Constructor of CmisApi (cmis.py lines 128-131): the vdm and cdb
collaborator handles are created only when the module is not flat memory;
on a flat-memory verdict both handles are None.  Unit stands for a
constructed collaborator object. -/
def cmis_init_handles (flat_mem_read : Option Bool) : Option Unit × Option Unit :=
  (if !is_flat_memory flat_mem_read then some () else none,
   if !is_flat_memory flat_mem_read then some () else none)

/-- get_temperature_support of CmisApi: not is_flat_memory. -/
def get_temperature_support (flat_mem_read : Option Bool) : Bool :=
  !is_flat_memory flat_mem_read

/-- RV: the result of a scalar monitor getter, which in Python is the
string sentinel "N/A", None on read failure, or a float. -/
inductive RV where
  | failed
  | na
  | num (q : ℚ)
deriving DecidableEq

/-- Model of the Python float formatting {:.3f} followed by float(...):
rounding to three decimal places. -/
def format_3f (q : ℚ) : ℚ := (round (q * 1000) : ℤ) / 1000

/-- get_module_temperature of CmisApi: "N/A" when temperature is
unsupported (flat memory), None when the TEMPERATURE_FIELD read fails,
the formatted reading otherwise. -/
def get_module_temperature (flat_mem_read : Option Bool) (temp_read : Option ℚ) : RV :=
  if !get_temperature_support flat_mem_read then RV.na
  else
    match temp_read with
    | none => RV.failed
    | some temp => RV.num (format_3f temp)

/-- Python str applied to an int register read that may have failed:
str(None) is the four-character string None. -/
def py_str_read (r : Option Nat) : String :=
  match r with
  | none => "None"
  | some num => toString num

/-- get_module_inactive_firmware of CmisApi (cmis.py lines 308-317):
"N/A" for flat memory, otherwise the dot-join of the str of the two
version register reads. -/
def get_module_inactive_firmware (flat_mem_read : Option Bool)
    (inactive_fw_major inactive_fw_minor : Option Nat) : String :=
  if is_flat_memory flat_mem_read then "N/A"
  else py_str_read inactive_fw_major ++ "." ++ py_str_read inactive_fw_minor

/-- get_module_hardware_revision of CmisApi (cmis.py lines 264-274). -/
def get_module_hardware_revision (flat_mem_read : Option Bool)
    (hw_major_rev hw_minor_rev : Option Nat) : String :=
  if is_flat_memory flat_mem_read then "0.0"
  else py_str_read hw_major_rev ++ "." ++ py_str_read hw_minor_rev

/-- get_cmis_rev of CmisApi (cmis.py lines 276-284): the dot-join of the
str of the CMIS major and minor revision reads; a failed read is
stringified as None rather than propagated. -/
def get_cmis_rev (cmis_major cmis_minor : Option Nat) : String :=
  py_str_read cmis_major ++ "." ++ py_str_read cmis_minor

/-- DATAPATH_INIT_DURATION_MULTIPLIER of cmis.py. -/
def DATAPATH_INIT_DURATION_MULTIPLIER : ℚ := 10

/-- DATAPATH_INIT_DURATION_OVERRIDE_THRESHOLD of cmis.py. -/
def DATAPATH_INIT_DURATION_OVERRIDE_THRESHOLD : ℚ := 1000

/-- get_datapath_init_duration of CmisApi (cmis.py lines 1003-1014):
0 for flat memory or a failed DP_PATH_INIT_DURATION read, value times the
multiplier when the value is at most the override threshold, the value
unchanged otherwise. -/
def get_datapath_init_duration (flat_mem_read : Option Bool)
    (duration_read : Option ℚ) : ℚ :=
  if is_flat_memory flat_mem_read then 0
  else
    match duration_read with
    | none => 0
    | some duration =>
      if duration ≤ DATAPATH_INIT_DURATION_OVERRIDE_THRESHOLD then
        duration * DATAPATH_INIT_DURATION_MULTIPLIER
      else duration

/-- QV: one slot of a per-lane monitor list, either the string sentinel
"N/A" or a numeric reading. -/
inductive QV where
  | na
  | val (q : ℚ)
deriving DecidableEq

/-- Register reads performed by get_tx_bias, in program order: the
flat-memory advertisement, TX_BIAS_SUPPORT_FIELD, TX_BIAS_SCALE and the
per-lane TX_BIAS_FIELD dict (keyed by the lane number 1..8). -/
structure TxBiasRegs where
  flat_mem_read : Option Bool
  tx_bias_support_read : Option Bool
  tx_bias_scale_read : Option Nat
  tx_bias_read : Option (Nat → ℚ)

/-- get_tx_bias_support of CmisApi: the Python expression
not is_flat_memory() and read(TX_BIAS_SUPPORT_FIELD), whose value is
False for flat memory and otherwise the read result (None on failure). -/
def get_tx_bias_support (st : TxBiasRegs) : Option Bool :=
  if is_flat_memory st.flat_mem_read then some false else st.tx_bias_support_read

/-- get_tx_bias of CmisApi (cmis.py lines 737-755): None when the support
read fails, eight "N/A" entries when unsupported or when the scale or
bias read fails, otherwise each lane reading multiplied by the scale
2 to the power s for a raw scale exponent s below 3 and by 1 otherwise. -/
def get_tx_bias (st : TxBiasRegs) : Option (List QV) :=
  match get_tx_bias_support st with
  | none => none
  | some false => some (List.replicate NUM_CHANNELS QV.na)
  | some true =>
    match st.tx_bias_scale_read with
    | none => some (List.replicate NUM_CHANNELS QV.na)
    | some scale_raw =>
      let scale : ℚ := if scale_raw < 3 then 2 ^ scale_raw else 1
      match st.tx_bias_read with
      | none => some (List.replicate NUM_CHANNELS QV.na)
      | some tx_bias =>
        some ((List.range' 1 NUM_CHANNELS).map (fun i => QV.val (tx_bias i * scale)))

/-- TX bias scale computation of get_transceiver_threshold_info
(cmis.py lines 527-531): None when the TX_BIAS_SCALE read fails,
otherwise 2 to the power of the raw exponent when it is below 3 and 1
otherwise; the resulting multiplier is applied to every TX bias
threshold entry. -/
def threshold_tx_bias_scale (tx_bias_scale_raw : Option Nat) : Option ℚ :=
  match tx_bias_scale_raw with
  | some raw => some (if raw < 3 then 2 ^ raw else 1)
  | none => none

/-- Claim C6: the effective TX-bias multiplier applied to the per-lane
bias readings by get_tx_bias and to the bias thresholds by
get_transceiver_threshold_info is 2 to the power s for a raw scale
exponent s below 3, and 1 for s at least 3. -/
theorem claim_C6_tx_bias_scale (s : Nat) (b : Nat → ℚ) :
    (s < 3 →
      get_tx_bias ⟨some false, some true, some s, some b⟩ =
        some ((List.range' 1 NUM_CHANNELS).map (fun i => QV.val (b i * 2 ^ s))) ∧
      threshold_tx_bias_scale (some s) = some (2 ^ s)) ∧
    (3 ≤ s →
      get_tx_bias ⟨some false, some true, some s, some b⟩ =
        some ((List.range' 1 NUM_CHANNELS).map (fun i => QV.val (b i * 1))) ∧
      threshold_tx_bias_scale (some s) = some 1) := by
  constructor
  · intro hs
    constructor
    · simp [get_tx_bias, get_tx_bias_support, is_flat_memory, if_pos hs]
    · simp [threshold_tx_bias_scale, if_pos hs]
  · intro hs
    have hs3 : ¬s < 3 := by omega
    constructor
    · simp [get_tx_bias, get_tx_bias_support, is_flat_memory, if_neg hs3]
    · simp [threshold_tx_bias_scale, if_neg hs3]

/-- Concrete instances of claim C6: raw exponent 2 gives multiplier 4,
raw exponent 3 gives multiplier 1. -/
theorem claim_C6_witness :
    ((2 : Nat) < 3 ∧
      (get_tx_bias ⟨some false, some true, some 2, some (fun _ => 3)⟩ =
        some ((List.range' 1 NUM_CHANNELS).map
          (fun i => QV.val ((fun _ => (3 : ℚ)) i * 2 ^ 2))) ∧
       threshold_tx_bias_scale (some 2) = some (2 ^ 2))) ∧
    ((3 : Nat) ≤ 3 ∧
      (get_tx_bias ⟨some false, some true, some 3, some (fun _ => 3)⟩ =
        some ((List.range' 1 NUM_CHANNELS).map
          (fun i => QV.val ((fun _ => (3 : ℚ)) i * 1))) ∧
       threshold_tx_bias_scale (some 3) = some 1)) :=
  ⟨⟨by decide, (claim_C6_tx_bias_scale 2 (fun _ => 3)).1 (by decide)⟩,
   ⟨by decide, (claim_C6_tx_bias_scale 3 (fun _ => 3)).2 (by decide)⟩⟩

/-- Claim C8: for a non-flat module whose DP_PATH_INIT_DURATION read
succeeds with raw value d, get_datapath_init_duration returns d times 10
when d is at most 1000 and d unchanged otherwise. -/
theorem claim_C8_dp_init_duration (d : ℚ) :
    (d ≤ 1000 → get_datapath_init_duration (some false) (some d) = d * 10) ∧
    (¬d ≤ 1000 → get_datapath_init_duration (some false) (some d) = d) := by
  constructor
  · intro hd
    simp [get_datapath_init_duration, is_flat_memory,
      DATAPATH_INIT_DURATION_MULTIPLIER, DATAPATH_INIT_DURATION_OVERRIDE_THRESHOLD, if_pos hd]
  · intro hd
    simp [get_datapath_init_duration, is_flat_memory,
      DATAPATH_INIT_DURATION_MULTIPLIER, DATAPATH_INIT_DURATION_OVERRIDE_THRESHOLD, if_neg hd]

/-- Concrete instances of claim C8: raw duration 5 is scaled to 50, raw
duration 2000 passes through unchanged. -/
theorem claim_C8_witness :
    ((5 : ℚ) ≤ 1000 ∧ get_datapath_init_duration (some false) (some 5) = 5 * 10) ∧
    (¬(2000 : ℚ) ≤ 1000 ∧ get_datapath_init_duration (some false) (some 2000) = 2000) :=
  ⟨⟨by norm_num, (claim_C8_dp_init_duration 5).1 (by norm_num)⟩,
   ⟨by norm_num, (claim_C8_dp_init_duration 2000).2 (by norm_num)⟩⟩

/-- Claim C9: is_flat_memory is true exactly when the FLAT_MEM_FIELD read
returns anything other than False; in particular a failed read (None)
classifies the module as flat memory, in which case the constructor sets
the vdm and cdb handles to None and the page-dependent getters return
their unsupported sentinels. -/
theorem claim_C9_flat_memory :
    (∀ r : Option Bool, is_flat_memory r = true ↔ r ≠ some false) ∧
    is_flat_memory none = true ∧
    cmis_init_handles none = (none, none) ∧
    (∀ t : Option ℚ, get_module_temperature none t = RV.na) ∧
    (∀ fw_major fw_minor : Option Nat,
      get_module_inactive_firmware none fw_major fw_minor = "N/A") ∧
    (∀ d : Option ℚ, get_datapath_init_duration none d = 0) ∧
    (∀ sup scale bias,
      get_tx_bias ⟨none, sup, scale, bias⟩ = some (List.replicate NUM_CHANNELS QV.na)) := by
  refine ⟨fun r => ?_, rfl, rfl, fun t => rfl, fun a b => rfl, fun d => rfl, fun a b c => rfl⟩
  simp [is_flat_memory, bne_iff_ne]

/- ---------------------------------------------------------------------
   Loopback controller (cmis.py lines 1399-1575).

   Each setter returns a bool; its only side effect is at most one write
   to its loopback register, modelled as a list of (field, value) writes
   performed (empty list = no write issued).
   --------------------------------------------------------------------- -/

/-- Register reads available to the loopback setters, plus the result the
eeprom write collaborator would return for a performed write. -/
structure LoopbackRegs where
  loopback_capability_read : Option Nat
  host_input_loopback_read : Nat
  host_output_loopback_read : Nat
  media_input_loopback_read : Nat
  media_output_loopback_read : Nat
  write_ok : Bool

/-- The seven capability booleans decoded by get_loopback_capability. -/
structure LoopbackCapability where
  simultaneous_host_media_loopback_supported : Bool
  per_lane_media_loopback_supported : Bool
  per_lane_host_loopback_supported : Bool
  host_side_input_loopback_supported : Bool
  host_side_output_loopback_supported : Bool
  media_side_input_loopback_supported : Bool
  media_side_output_loopback_supported : Bool

/-- get_loopback_capability of CmisApi (cmis.py lines 1399-1411): None
when the LOOPBACK_CAPABILITY read fails, otherwise the seven bits of the
capability byte. -/
def get_loopback_capability (loopback_capability_read : Option Nat) :
    Option LoopbackCapability :=
  match loopback_capability_read with
  | none => none
  | some allowed =>
    some {
      simultaneous_host_media_loopback_supported := (allowed >>> 6) &&& 0x1 != 0
      per_lane_media_loopback_supported := (allowed >>> 5) &&& 0x1 != 0
      per_lane_host_loopback_supported := (allowed >>> 4) &&& 0x1 != 0
      host_side_input_loopback_supported := (allowed >>> 3) &&& 0x1 != 0
      host_side_output_loopback_supported := (allowed >>> 2) &&& 0x1 != 0
      media_side_input_loopback_supported := (allowed >>> 1) &&& 0x1 != 0
      media_side_output_loopback_supported := (allowed >>> 0) &&& 0x1 != 0 }

/-- set_host_input_loopback of CmisApi (cmis.py lines 1413-1452). -/
def set_host_input_loopback (st : LoopbackRegs) (lane_mask : Nat) (enable : Bool) :
    Bool × List (String × Nat) :=
  match get_loopback_capability st.loopback_capability_read with
  | none => (false, [])
  | some cap =>
    if cap.host_side_input_loopback_supported = false then (false, [])
    else if cap.per_lane_host_loopback_supported = false ∧ lane_mask ≠ 0xff then
      (false, [])
    else if cap.simultaneous_host_media_loopback_supported = false ∧
        (st.media_input_loopback_read ≠ 0 ∨ st.media_output_loopback_read ≠ 0) then
      (false, [])
    else if enable then
      (st.write_ok, [("HOST_INPUT_LOOPBACK", st.host_input_loopback_read ||| lane_mask)])
    else
      (st.write_ok,
        [("HOST_INPUT_LOOPBACK", Nat.ldiff st.host_input_loopback_read lane_mask)])

/-- set_host_output_loopback of CmisApi (cmis.py lines 1454-1493). -/
def set_host_output_loopback (st : LoopbackRegs) (lane_mask : Nat) (enable : Bool) :
    Bool × List (String × Nat) :=
  match get_loopback_capability st.loopback_capability_read with
  | none => (false, [])
  | some cap =>
    if cap.host_side_output_loopback_supported = false then (false, [])
    else if cap.per_lane_host_loopback_supported = false ∧ lane_mask ≠ 0xff then
      (false, [])
    else if cap.simultaneous_host_media_loopback_supported = false ∧
        (st.media_input_loopback_read ≠ 0 ∨ st.media_output_loopback_read ≠ 0) then
      (false, [])
    else if enable then
      (st.write_ok, [("HOST_OUTPUT_LOOPBACK", st.host_output_loopback_read ||| lane_mask)])
    else
      (st.write_ok,
        [("HOST_OUTPUT_LOOPBACK", Nat.ldiff st.host_output_loopback_read lane_mask)])

/-- set_media_input_loopback of CmisApi (cmis.py lines 1495-1534). -/
def set_media_input_loopback (st : LoopbackRegs) (lane_mask : Nat) (enable : Bool) :
    Bool × List (String × Nat) :=
  match get_loopback_capability st.loopback_capability_read with
  | none => (false, [])
  | some cap =>
    if cap.media_side_input_loopback_supported = false then (false, [])
    else if cap.per_lane_media_loopback_supported = false ∧ lane_mask ≠ 0xff then
      (false, [])
    else if cap.simultaneous_host_media_loopback_supported = false ∧
        (st.host_input_loopback_read ≠ 0 ∨ st.host_output_loopback_read ≠ 0) then
      (false, [])
    else if enable then
      (st.write_ok, [("MEDIA_INPUT_LOOPBACK", st.media_input_loopback_read ||| lane_mask)])
    else
      (st.write_ok,
        [("MEDIA_INPUT_LOOPBACK", Nat.ldiff st.media_input_loopback_read lane_mask)])

/-- set_media_output_loopback of CmisApi (cmis.py lines 1536-1575). -/
def set_media_output_loopback (st : LoopbackRegs) (lane_mask : Nat) (enable : Bool) :
    Bool × List (String × Nat) :=
  match get_loopback_capability st.loopback_capability_read with
  | none => (false, [])
  | some cap =>
    if cap.media_side_output_loopback_supported = false then (false, [])
    else if cap.per_lane_media_loopback_supported = false ∧ lane_mask ≠ 0xff then
      (false, [])
    else if cap.simultaneous_host_media_loopback_supported = false ∧
        (st.host_input_loopback_read ≠ 0 ∨ st.host_output_loopback_read ≠ 0) then
      (false, [])
    else if enable then
      (st.write_ok, [("MEDIA_OUTPUT_LOOPBACK", st.media_output_loopback_read ||| lane_mask)])
    else
      (st.write_ok,
        [("MEDIA_OUTPUT_LOOPBACK", Nat.ldiff st.media_output_loopback_read lane_mask)])

/-- Claim C7: every loopback setter invoked with a lane mask other than
0xff, on a module whose capability byte advertises the requested
direction as supported but per-lane granularity as unsupported, returns
False and issues no register write. -/
theorem claim_C7_loopback_per_lane (st : LoopbackRegs) (capByte lane_mask : Nat)
    (enable : Bool)
    (hcap : st.loopback_capability_read = some capByte)
    (hperlane_host : ((capByte >>> 4) &&& 0x1 != 0) = false)
    (hperlane_media : ((capByte >>> 5) &&& 0x1 != 0) = false)
    (_hdir_hi : ((capByte >>> 3) &&& 0x1 != 0) = true)
    (_hdir_ho : ((capByte >>> 2) &&& 0x1 != 0) = true)
    (_hdir_mi : ((capByte >>> 1) &&& 0x1 != 0) = true)
    (_hdir_mo : ((capByte >>> 0) &&& 0x1 != 0) = true)
    (hmask : lane_mask ≠ 0xff) :
    set_host_input_loopback st lane_mask enable = (false, []) ∧
    set_host_output_loopback st lane_mask enable = (false, []) ∧
    set_media_input_loopback st lane_mask enable = (false, []) ∧
    set_media_output_loopback st lane_mask enable = (false, []) := by
  have h4 : capByte >>> 4 % 2 = 0 := by
    have h := hperlane_host
    rw [Nat.and_one_is_mod] at h
    simpa using h
  have h5 : capByte >>> 5 % 2 = 0 := by
    have h := hperlane_media
    rw [Nat.and_one_is_mod] at h
    simpa using h
  refine ⟨?_, ?_, ?_, ?_⟩ <;>
    simp [set_host_input_loopback, set_host_output_loopback,
      set_media_input_loopback, set_media_output_loopback,
      get_loopback_capability, hcap, hperlane_host, hperlane_media,
      _hdir_hi, _hdir_ho, _hdir_mi, _hdir_mo, hmask] <;>
    (intros; omega)

/-- Concrete instance of claim C7: capability byte 0x0f (all four
directions supported, per-lane unsupported), mask 0x3. -/
theorem claim_C7_witness :
    set_host_input_loopback ⟨some 0x0f, 0, 0, 0, 0, true⟩ 0x3 true = (false, []) ∧
    set_host_output_loopback ⟨some 0x0f, 0, 0, 0, 0, true⟩ 0x3 true = (false, []) ∧
    set_media_input_loopback ⟨some 0x0f, 0, 0, 0, 0, true⟩ 0x3 true = (false, []) ∧
    set_media_output_loopback ⟨some 0x0f, 0, 0, 0, 0, true⟩ 0x3 true = (false, []) :=
  claim_C7_loopback_per_lane ⟨some 0x0f, 0, 0, 0, 0, true⟩ 0x0f 0x3 true rfl
    (by decide) (by decide) (by decide) (by decide) (by decide) (by decide) (by decide)

/- ---------------------------------------------------------------------
   Firmware switch (cmis.py lines 2113-2152).

   module_fw_switch calls get_module_fw_info before and after the
   run+commit sequence; the two result tuples are the arguments here.
   The validity status encoding of get_module_fw_info is 1 = invalid,
   0 = valid (cmis.py lines 1777-1784).  The intervening module_fw_run
   and module_fw_commit calls and the 60 second sleep have their results
   discarded by the source and are not modelled.
   --------------------------------------------------------------------- -/

/-- The bank fields of a get_module_fw_info result tuple. -/
structure FwInfoResult where
  imageA : String
  imageARunning : Nat
  imageACommitted : Nat
  imageAValid : Nat
  imageB : String
  imageBRunning : Nat
  imageBCommitted : Nat
  imageBValid : Nat
deriving DecidableEq

/-- The before/after report text accumulated by module_fw_switch. -/
def fw_switch_report (before after : FwInfoResult) : String :=
  "Before switch Image A: " ++ before.imageA ++ "; Run: " ++
    toString before.imageARunning ++ " Commit: " ++ toString before.imageACommitted ++
    ", Valid: " ++ toString before.imageAValid ++ "\n" ++
  "Before switch Image B: " ++ before.imageB ++ "; Run: " ++
    toString before.imageBRunning ++ " Commit: " ++ toString before.imageBCommitted ++
    ", Valid: " ++ toString before.imageBValid ++ "\n" ++
  "After switch Image A: " ++ after.imageA ++ "; Run: " ++
    toString after.imageARunning ++ " Commit: " ++ toString after.imageACommitted ++
    ", Valid: " ++ toString after.imageAValid ++ "\n" ++
  "After switch Image B: " ++ after.imageB ++ "; Run: " ++
    toString after.imageBRunning ++ " Commit: " ++ toString after.imageBCommitted ++
    ", Valid: " ++ toString after.imageBValid ++ "\n"

/-- module_fw_switch of CmisApi (cmis.py lines 2113-2152): the switch is
attempted only when both validity flags read 0 (both banks valid), and
then fails exactly when a bank that was running before is still running
afterwards; with any bank invalid it returns False immediately. -/
def module_fw_switch (before after : FwInfoResult) : Bool × String :=
  if before.imageAValid == 0 && before.imageBValid == 0 then
    let txt := fw_switch_report before after
    if (before.imageARunning == 1 && after.imageARunning == 1) ||
       (before.imageBRunning == 1 && after.imageBRunning == 1) then
      (false, txt ++ "Switch did not happen.\n")
    else
      (true, txt)
  else
    (false, "Not both images are valid.")

/-- Claim C5 as amended: module_fw_switch succeeds exactly when both
banks were valid at the outset (both validity flags 0) and no
previously-running bank is still reported as running afterwards; any
invalid bank at the outset fails the switch, not only the case where
neither bank was valid. -/
theorem claim_C5_fw_switch (before after : FwInfoResult) :
    (module_fw_switch before after).1 = true ↔
      (before.imageAValid = 0 ∧ before.imageBValid = 0 ∧
       ¬((before.imageARunning = 1 ∧ after.imageARunning = 1) ∨
         (before.imageBRunning = 1 ∧ after.imageBRunning = 1))) := by
  unfold module_fw_switch
  split
  next h =>
    rw [Bool.and_eq_true, beq_iff_eq, beq_iff_eq] at h
    split
    next h2 =>
      rw [Bool.or_eq_true, Bool.and_eq_true, Bool.and_eq_true,
        beq_iff_eq, beq_iff_eq, beq_iff_eq, beq_iff_eq] at h2
      simp only [h.1, h.2]
      tauto
    next h2 =>
      rw [Bool.or_eq_true, Bool.and_eq_true, Bool.and_eq_true,
        beq_iff_eq, beq_iff_eq, beq_iff_eq, beq_iff_eq] at h2
      simp only [h.1, h.2]
      tauto
  next h =>
    rw [Bool.and_eq_true, beq_iff_eq, beq_iff_eq] at h
    simp only [not_and] at h
    constructor
    · intro hc
      exact absurd hc (by simp)
    · intro hc
      exact absurd (h hc.1) (by simp [hc.2.1])

/-- Fw-switch state refuting claim C5 as stated: bank A valid and
running, bank B invalid. -/
def fw_switch_cex_before : FwInfoResult := ⟨"1.0.0", 1, 1, 0, "N/A", 0, 0, 1⟩

/-- After state for the C5 counterexample: bank A no longer running. -/
def fw_switch_cex_after : FwInfoResult := ⟨"1.0.0", 0, 0, 0, "2.0.0", 1, 1, 0⟩

/-- Counterexample to claim C5 as stated: with bank A valid (so not the
claimed failure condition that neither bank was valid) and no
previously-running bank still running afterwards, the claim predicts
True, but module_fw_switch returns False because bank B is invalid. -/
theorem claim_C5_counterexample :
    (module_fw_switch fw_switch_cex_before fw_switch_cex_after).1 = false ∧
    ¬(fw_switch_cex_before.imageAValid ≠ 0 ∧ fw_switch_cex_before.imageBValid ≠ 0) ∧
    ¬((fw_switch_cex_before.imageARunning = 1 ∧ fw_switch_cex_after.imageARunning = 1) ∨
      (fw_switch_cex_before.imageBRunning = 1 ∧ fw_switch_cex_after.imageBRunning = 1)) := by
  decide

/- ---------------------------------------------------------------------
   Firmware run / commit / download (cmis.py lines 1879-1951, 1969-2076).

   The CDB collaborator is modelled as scripts giving the status code of
   each successive command invocation.  Besides the returned (bool, text)
   pair each embedding reports how many times the CDB command was issued
   and how many times module_enter_password was called, so that the
   password-retry discipline is visible in the result.
   --------------------------------------------------------------------- -/

/-- module_fw_run of CmisApi (cmis.py lines 1879-1918): status 1 is
success; status 70 enters the module password once and reissues
run_fw_image once, after which control falls through to the success
return without examining the retried status; any other status fails.
Result: ((returned bool, accumulated txt), run_fw_image calls,
module_enter_password calls). -/
def module_fw_run (run_results : Nat → Nat) : (Bool × String) × Nat × Nat :=
  let fw_run_status := run_results 0
  if fw_run_status = 1 then
    ((true, "Module FW run: Success\n"), 1, 0)
  else if fw_run_status = 70 then
    ((true, "FW_run_status " ++ toString (run_results 1) ++ "\n"), 2, 1)
  else
    ((false, "Module FW run: Fail\n" ++ "FW_run_status " ++ toString fw_run_status ++ "\n"),
      1, 0)

/-- module_fw_commit of CmisApi (cmis.py lines 1920-1951): same shape as
module_fw_run with commit_fw_image. -/
def module_fw_commit (commit_results : Nat → Nat) : (Bool × String) × Nat × Nat :=
  let fw_commit_status := commit_results 0
  if fw_commit_status = 1 then
    ((true, "Module FW commit: Success\n"), 1, 0)
  else if fw_commit_status = 70 then
    ((true, "FW_commit_status " ++ toString (commit_results 1) ++ "\n"), 2, 1)
  else
    ((false, "Module FW commit: Fail\n" ++ "FW_commit_status " ++
      toString fw_commit_status ++ "\n"), 1, 0)

/-- Status scripts of the CDB collaborator used by module_fw_download:
statuses of successive start_fw_download calls, of successive block
writes (lpl or epl), and of validate_fw_image. -/
structure CdbDownloadScript where
  start_results : Nat → Nat
  block_results : Nat → Nat
  complete_result : Nat

/-- Outcome of module_fw_download: the returned bool (None models the
infinite while loop reached with block size 0), the number of
start_fw_download calls, the number of module_enter_password calls, the
(address, byte count) of each block write issued, and whether
abort_fw_download was issued.  The diagnostic text is not modelled. -/
structure DownloadOutcome where
  ok : Option Bool
  start_calls : Nat
  password_entries : Nat
  block_writes : List (Nat × Nat)
  aborted : Bool
deriving DecidableEq

/-- The while loop of module_fw_download (cmis.py lines 2035-2055),
written with an explicit fuel argument so that it is structurally
recursive; the caller passes the initial remaining count as fuel, which
bounds the iteration count whenever the block size is positive, and the
fuel-exhausted answer none is reached exactly in the diverging
block-size-0 case. -/
def fw_download_loop (block_results : Nat → Nat) (blockSize : Nat) :
    Nat → Nat → Nat → Nat → List (Nat × Nat) → Option (Bool × Nat × List (Nat × Nat))
  | fuel, address, remaining, call_idx, writes =>
    if remaining = 0 then some (true, call_idx, writes)
    else
      match fuel with
      | 0 => none
      | Nat.succ fuel =>
        let count := if remaining < blockSize then remaining else blockSize
        if block_results call_idx ≠ 1 then
          some (false, call_idx + 1, writes ++ [(address, count)])
        else
          fw_download_loop block_results blockSize fuel (address + count)
            (remaining - count) (call_idx + 1) (writes ++ [(address, count)])

/-- Transfer and validate phases of module_fw_download (cmis.py lines
2026-2076), entered after the start command: block size is 116 for
lpl-only modules and the negotiated maximum otherwise; any failed block
write aborts the download; success then requires validate_fw_image to
return 1. -/
def fw_download_after_start (maxblocksize : Nat) (lplonly_flag : Bool)
    (startLPLsize imagesize : Nat) (scr : CdbDownloadScript)
    (start_calls password_entries : Nat) : DownloadOutcome :=
  let BLOCK_SIZE := if lplonly_flag then 116 else maxblocksize
  let remaining := imagesize - startLPLsize
  match fw_download_loop scr.block_results BLOCK_SIZE remaining 0 remaining 0 [] with
  | none => ⟨none, start_calls, password_entries, [], false⟩
  | some (false, _, ws) => ⟨some false, start_calls, password_entries, ws, true⟩
  | some (true, _, ws) =>
    if scr.complete_result = 1 then
      ⟨some true, start_calls, password_entries, ws, false⟩
    else
      ⟨some false, start_calls, password_entries, ws, false⟩

/-- module_fw_download of CmisApi (cmis.py lines 1969-2076): start status
1 proceeds; start status 70 enters the module password once and resends
start_fw_download once, then proceeds to the transfer phase without
examining the retried status; any other start status aborts the download
and fails. -/
def module_fw_download (startLPLsize maxblocksize : Nat)
    (lplonly_flag _autopaging_flag : Bool) (_writelength imagesize : Nat)
    (scr : CdbDownloadScript) : DownloadOutcome :=
  let fw_start_status := scr.start_results 0
  if fw_start_status = 1 then
    fw_download_after_start maxblocksize lplonly_flag startLPLsize imagesize scr 1 0
  else if fw_start_status = 70 then
    fw_download_after_start maxblocksize lplonly_flag startLPLsize imagesize scr 2 1
  else
    ⟨some false, 1, 0, [], true⟩

/-- Claim C4, code-bug evaluation: when the CDB command returns the
password-required status 70 on both the first call and the retry, each
of module_fw_run, module_fw_commit and module_fw_download performs
exactly one password entry and exactly one retry of the same command,
but then reports success instead of failing: run and commit return True
even though the retried status is 70, and the download proceeds to
transfer blocks and returns True when the later phases succeed. -/
theorem claim_C4_password_retry_not_checked :
    module_fw_run (fun _ => 70) = ((true, "FW_run_status 70\n"), 2, 1) ∧
    module_fw_commit (fun _ => 70) = ((true, "FW_commit_status 70\n"), 2, 1) ∧
    module_fw_download 100 300 false false 2048 1000 ⟨fun _ => 70, fun _ => 1, 1⟩ =
      ⟨some true, 2, 1, [(0, 300), (300, 300), (600, 300)], false⟩ := by
  refine ⟨rfl, rfl, ?_⟩
  decide

/- ---------------------------------------------------------------------
   VDM telemetry aggregation (cmis.py lines 33-80, 140-163, 2318-2511).

   The raw structure returned by the VDM collaborator is an arbitrary
   nested Python value; subscripting it can raise KeyError, TypeError or
   IndexError.  _update_vdm_dict catches exactly KeyError and TypeError.
   --------------------------------------------------------------------- -/

/-- PyKey: a subscript key as used by the VDM aggregation, either a
string (observable name) or a nonnegative int (lane or subtype index). -/
inductive PyKey where
  | kStr (s : String)
  | kNum (n : Nat)
deriving DecidableEq

/-- PyObj: the fragment of Python values that can appear in the raw VDM
structure supplied by the VDM collaborator. -/
inductive PyObj where
  | vNone
  | vNum (q : ℚ)
  | vBool (b : Bool)
  | vStr (s : String)
  | vList (xs : List PyObj)
  | vDict (entries : List (PyKey × PyObj))

/-- PyErr: the exception classes that subscripting a nested Python value
can raise. -/
inductive PyErr where
  | keyError
  | typeError
  | indexError
deriving DecidableEq

/-- Dict lookup by key equality, modelling Python dict subscripting. -/
def pyDictLookup : List (PyKey × PyObj) → PyKey → Option PyObj
  | [], _ => none
  | (k, v) :: rest, key => if k = key then some v else pyDictLookup rest key

/-- Python subscription obj[key]: dict lookup raises KeyError on a
missing key; sequence indexing by an int raises IndexError when out of
range and TypeError for a non-int subscript (a string subscripted in
range yields a one-character string); subscripting None, a number or a
bool raises TypeError. -/
def pySubscript (obj : PyObj) (key : PyKey) : Except PyErr PyObj :=
  match obj with
  | .vDict entries =>
    match pyDictLookup entries key with
    | some v => .ok v
    | none => .error .keyError
  | .vList xs =>
    match key with
    | .kNum n =>
      match xs.get? n with
      | some v => .ok v
      | none => .error .indexError
    | .kStr _ => .error .typeError
  | .vStr s =>
    match key with
    | .kNum n =>
      match s.toList.get? n with
      | some c => .ok (.vStr (String.singleton c))
      | none => .error .indexError
    | .kStr _ => .error .typeError
  | .vNone => .error .typeError
  | .vNum _ => .error .typeError
  | .vBool _ => .error .typeError

/-- The three-level lookup inside the try block of _update_vdm_dict:
vdm_raw_dict[vdm_observable_type][lane][vdm_subtype_index.value]. -/
def vdmLookup (vdm_raw_dict : PyObj) (vdm_observable_type : String)
    (lane vdm_subtype_index : Nat) : Except PyErr PyObj :=
  match pySubscript vdm_raw_dict (.kStr vdm_observable_type) with
  | .error e => .error e
  | .ok o1 =>
    match pySubscript o1 (.kNum lane) with
    | .error e => .error e
    | .ok o2 => pySubscript o2 (.kNum vdm_subtype_index)

/-- _update_vdm_dict of CmisApi (cmis.py lines 140-163): performs the
three-level lookup and stores the value under new_key, returning True;
a KeyError or TypeError at any level instead stores the string sentinel
and returns False; any other exception (an IndexError from a too-short
sequence) propagates to the caller. -/
def _update_vdm_dict (dict_to_update : List (String × PyObj)) (new_key : String)
    (vdm_raw_dict : PyObj) (vdm_observable_type : String)
    (vdm_subtype_index lane : Nat) :
    Except PyErr (List (String × PyObj) × Bool) :=
  match vdmLookup vdm_raw_dict vdm_observable_type lane vdm_subtype_index with
  | .ok v => .ok (dict_to_update ++ [(new_key, v)], true)
  | .error .keyError => .ok (dict_to_update ++ [(new_key, .vStr "N/A")], false)
  | .error .typeError => .ok (dict_to_update ++ [(new_key, .vStr "N/A")], false)
  | .error e => .error e

/-- One planned _update_vdm_dict call of an aggregation method: output
key, observable name, subtype index and lane. -/
structure VdmItem where
  key : String
  obs : String
  subtype : Nat
  lane : Nat

/-- Folding _update_vdm_dict over the planned calls of one aggregation
method, threading the output dict; the bool result of each call is
discarded exactly as the source loops do. -/
def run_vdm_updates (vdm_raw_dict : PyObj) :
    List VdmItem → List (String × PyObj) → Except PyErr (List (String × PyObj))
  | [], acc => .ok acc
  | it :: rest, acc =>
    match _update_vdm_dict acc it.key vdm_raw_dict it.obs it.subtype it.lane with
    | .error e => .error e
    | .ok (acc2, _) => run_vdm_updates vdm_raw_dict rest acc2

/-- CMIS_VDM_KEY_TO_DB_PREFIX_KEY_MAP of cmis.py (lines 58-80). -/
def cmis_vdm_key_to_db_prefix_key_map : List (String × String) :=
  [("Laser Temperature [C]", "laser_temperature_media"),
   ("eSNR Media Input [dB]", "esnr_media_input"),
   ("PAM4 Level Transition Parameter Media Input [dB]", "pam4_level_transition_media_input"),
   ("Pre-FEC BER Minimum Media Input", "prefec_ber_min_media_input"),
   ("Pre-FEC BER Maximum Media Input", "prefec_ber_max_media_input"),
   ("Pre-FEC BER Average Media Input", "prefec_ber_avg_media_input"),
   ("Pre-FEC BER Current Value Media Input", "prefec_ber_curr_media_input"),
   ("Errored Frames Minimum Media Input", "errored_frames_min_media_input"),
   ("Errored Frames Maximum Media Input", "errored_frames_max_media_input"),
   ("Errored Frames Average Media Input", "errored_frames_avg_media_input"),
   ("Errored Frames Current Value Media Input", "errored_frames_curr_media_input"),
   ("eSNR Host Input [dB]", "esnr_host_input"),
   ("PAM4 Level Transition Parameter Host Input [dB]", "pam4_level_transition_host_input"),
   ("Pre-FEC BER Minimum Host Input", "prefec_ber_min_host_input"),
   ("Pre-FEC BER Maximum Host Input", "prefec_ber_max_host_input"),
   ("Pre-FEC BER Average Host Input", "prefec_ber_avg_host_input"),
   ("Pre-FEC BER Current Value Host Input", "prefec_ber_curr_host_input"),
   ("Errored Frames Minimum Host Input", "errored_frames_min_host_input"),
   ("Errored Frames Maximum Host Input", "errored_frames_max_host_input"),
   ("Errored Frames Average Host Input", "errored_frames_avg_host_input"),
   ("Errored Frames Current Value Host Input", "errored_frames_curr_host_input")]

/-- THRESHOLD_TYPE_STR_MAP of cmis.py: subtype index to key suffix. -/
def threshold_type_str_map : List (Nat × String) :=
  [(1, "halarm"), (2, "lalarm"), (3, "hwarn"), (4, "lwarn")]

/-- FLAG_TYPE_STR_MAP of cmis.py: subtype index to key suffix. -/
def flag_type_str_map : List (Nat × String) :=
  [(5, "halarm"), (6, "lalarm"), (7, "hwarn"), (8, "lwarn")]

/-- The _update_vdm_dict calls issued by get_transceiver_vdm_real_value
(cmis.py lines 2370-2377): every observable of the prefix map, every
lane 1..8, subtype index 0 (VDM_SUBTYPE_REAL_VALUE). -/
def vdm_real_value_items : List VdmItem :=
  cmis_vdm_key_to_db_prefix_key_map.flatMap (fun p =>
    (List.range' 1 NUM_CHANNELS).map (fun lane =>
      ⟨p.2 ++ toString lane, p.1, 0, lane⟩))

/-- The _update_vdm_dict calls issued by get_transceiver_vdm_thresholds
(cmis.py lines 2432-2444): subtype indices 1..4 with their suffixes. -/
def vdm_thresholds_items : List VdmItem :=
  cmis_vdm_key_to_db_prefix_key_map.flatMap (fun p =>
    (List.range' 1 NUM_CHANNELS).flatMap (fun lane =>
      threshold_type_str_map.map (fun t =>
        ⟨p.2 ++ "_" ++ t.2 ++ toString lane, p.1, t.1, lane⟩)))

/-- The _update_vdm_dict calls issued by get_transceiver_vdm_flags
(cmis.py lines 2499-2511): subtype indices 5..8 with their suffixes. -/
def vdm_flags_items : List VdmItem :=
  cmis_vdm_key_to_db_prefix_key_map.flatMap (fun p =>
    (List.range' 1 NUM_CHANNELS).flatMap (fun lane =>
      flag_type_str_map.map (fun t =>
        ⟨p.2 ++ "_" ++ t.2 ++ toString lane, p.1, t.1, lane⟩)))

/-- get_transceiver_vdm_real_value of CmisApi, as a function of the raw
structure returned by the VDM collaborator. -/
def get_transceiver_vdm_real_value (vdm_raw_dict : PyObj) :
    Except PyErr (List (String × PyObj)) :=
  run_vdm_updates vdm_raw_dict vdm_real_value_items []

/-- get_transceiver_vdm_thresholds of CmisApi. -/
def get_transceiver_vdm_thresholds (vdm_raw_dict : PyObj) :
    Except PyErr (List (String × PyObj)) :=
  run_vdm_updates vdm_raw_dict vdm_thresholds_items []

/-- get_transceiver_vdm_flags of CmisApi. -/
def get_transceiver_vdm_flags (vdm_raw_dict : PyObj) :
    Except PyErr (List (String × PyObj)) :=
  run_vdm_updates vdm_raw_dict vdm_flags_items []

/-- The best-effort value of one output key: the looked-up raw value if
the three-level lookup succeeds, the string sentinel otherwise. -/
def vdm_item_resolved (vdm_raw_dict : PyObj) (it : VdmItem) : String × PyObj :=
  (it.key,
    match vdmLookup vdm_raw_dict it.obs it.lane it.subtype with
    | .ok v => v
    | .error _ => .vStr "N/A")

lemma update_vdm_dict_error_is_indexError (acc : List (String × PyObj)) (k : String)
    (raw : PyObj) (obs : String) (idx lane : Nat) (e : PyErr)
    (h : _update_vdm_dict acc k raw obs idx lane = .error e) : e = .indexError := by
  unfold _update_vdm_dict at h
  cases hl : vdmLookup raw obs lane idx with
  | ok v => rw [hl] at h; exact absurd h (by simp)
  | error er =>
    cases er <;> rw [hl] at h
    · exact absurd h (by simp)
    · exact absurd h (by simp)
    · injection h with h1
      exact h1.symm

lemma update_vdm_dict_ok_shape (acc : List (String × PyObj)) (k : String)
    (raw : PyObj) (obs : String) (idx lane : Nat) (acc2 : List (String × PyObj)) (b : Bool)
    (h : _update_vdm_dict acc k raw obs idx lane = .ok (acc2, b)) :
    acc2 = acc ++ [vdm_item_resolved raw ⟨k, obs, idx, lane⟩] := by
  unfold _update_vdm_dict at h
  unfold vdm_item_resolved
  cases hl : vdmLookup raw obs lane idx with
  | ok v =>
    rw [hl] at h
    injection h with h1
    exact (congrArg Prod.fst h1).symm
  | error er =>
    cases er <;> rw [hl] at h
    · injection h with h1
      exact (congrArg Prod.fst h1).symm
    · injection h with h1
      exact (congrArg Prod.fst h1).symm
    · exact absurd h (by simp)

lemma run_vdm_updates_characterization (raw : PyObj) (items : List VdmItem)
    (acc : List (String × PyObj)) :
    run_vdm_updates raw items acc = .error .indexError ∨
    run_vdm_updates raw items acc = .ok (acc ++ items.map (vdm_item_resolved raw)) := by
  induction items generalizing acc with
  | nil => right; simp [run_vdm_updates]
  | cons it rest ih =>
    unfold run_vdm_updates
    cases h : _update_vdm_dict acc it.key raw it.obs it.subtype it.lane with
    | error e =>
      left
      rw [update_vdm_dict_error_is_indexError acc it.key raw it.obs it.subtype it.lane e h]
    | ok p =>
      obtain ⟨acc2, b⟩ := p
      have hshape := update_vdm_dict_ok_shape acc it.key raw it.obs it.subtype it.lane acc2 b h
      rcases ih acc2 with h1 | h1
      · left; exact h1
      · right
        show run_vdm_updates raw rest acc2 = _
        rw [h1, hshape]
        simp

/-- Claim C3 as amended: for every raw VDM structure, each of the three
aggregation methods either populates every planned output key, giving
each key the looked-up raw value when its three-level lookup succeeds
and the sentinel string when the lookup hits a missing key or a
wrong-typed level (KeyError or TypeError), or aborts with an uncaught
IndexError, which happens exactly when some lookup reaches an in-range
observable and lane whose entry is a sequence shorter than the subtype
index requires. -/
theorem claim_C3_vdm_best_effort (vdm_raw_dict : PyObj) :
    (get_transceiver_vdm_real_value vdm_raw_dict = .error .indexError ∨
     get_transceiver_vdm_real_value vdm_raw_dict =
       .ok (vdm_real_value_items.map (vdm_item_resolved vdm_raw_dict))) ∧
    (get_transceiver_vdm_thresholds vdm_raw_dict = .error .indexError ∨
     get_transceiver_vdm_thresholds vdm_raw_dict =
       .ok (vdm_thresholds_items.map (vdm_item_resolved vdm_raw_dict))) ∧
    (get_transceiver_vdm_flags vdm_raw_dict = .error .indexError ∨
     get_transceiver_vdm_flags vdm_raw_dict =
       .ok (vdm_flags_items.map (vdm_item_resolved vdm_raw_dict))) := by
  refine ⟨?_, ?_, ?_⟩
  · simpa [get_transceiver_vdm_real_value] using
      run_vdm_updates_characterization vdm_raw_dict vdm_real_value_items []
  · simpa [get_transceiver_vdm_thresholds] using
      run_vdm_updates_characterization vdm_raw_dict vdm_thresholds_items []
  · simpa [get_transceiver_vdm_flags] using
      run_vdm_updates_characterization vdm_raw_dict vdm_flags_items []

/-- Raw VDM structure refuting claim C3 as stated: the first observable
is present with lane 1 present, but the per-lane entry is an empty
sequence, so the subtype lookup raises IndexError, which
_update_vdm_dict does not catch. -/
def vdm_cex_raw : PyObj :=
  .vDict [(.kStr "Laser Temperature [C]", .vDict [(.kNum 1, .vList [])])]

/-- Counterexample to claim C3 as stated: on vdm_cex_raw the real-value
aggregation propagates an uncaught IndexError instead of resolving the
affected key to the sentinel and continuing. -/
theorem claim_C3_counterexample :
    get_transceiver_vdm_real_value vdm_cex_raw = .error .indexError := by
  rfl

/- ---------------------------------------------------------------------
   Identity aggregate get_transceiver_info (cmis.py lines 82-111 and
   322-370) and get_cmis_rev (lines 276-284).

   The ADMIN_INFO_FIELD read returns a decoded dict or None; its
   sub-fields are the AdminInfo record.  The sub-getters that
   get_transceiver_info calls and that are not named by the claim are
   register-backed and their results are passed in as values (XV.none
   standing for a read failure propagated as Python None); the numeric
   rendering of the max-power field inside ext_identifier is supplied
   already formatted.
   --------------------------------------------------------------------- -/

/-- XV: one value of the transceiver-info dict: a string, a float, an
int, a bool, or Python None standing for a failed read. -/
inductive XV where
  | s (v : String)
  | q (v : ℚ)
  | n (v : Nat)
  | b (v : Bool)
  | none'
deriving DecidableEq

/-- Python str.rstrip(): drop trailing whitespace. -/
def py_rstrip (s : String) : String :=
  s.dropRightWhile Char.isWhitespace

/-- The sub-fields of a successful ADMIN_INFO_FIELD read used by
get_transceiver_info. -/
structure AdminInfo where
  id_field : String
  id_abbrv : String
  vendor_serial : String
  vendor_name : String
  vendor_part : String
  connector : String
  power_class : String
  max_power_str : String
  length_assembly : ℚ
  vendor_date : String
  vendor_oui : String

/-- Register reads and sub-getter results consumed by
get_transceiver_info. -/
structure XcvrInfoRegs where
  admin_info_read : Option AdminInfo
  flat_mem_read : Option Bool
  hw_major_rev : Option Nat
  hw_minor_rev : Option Nat
  cmis_major : Option Nat
  cmis_minor : Option Nat
  appl_advert_count : Nat
  appl_advert_str : String
  host_electrical_interface : XV
  media_interface_code : XV
  host_lane_count : XV
  media_lane_count : XV
  host_lane_assignment_option : XV
  media_lane_assignment_option : XV
  media_interface_technology : XV
  vendor_rev_read : Option String
  module_media_type : XV
  vdm_supported : XV
  active_apsel_hostlane : Nat → XV

/-- get_cable_length_type of CmisApi: a constant string. -/
def get_cable_length_type : String := "Length Cable Assembly(m)"

/-- get_transceiver_info of CmisApi (cmis.py lines 322-370): None when
the ADMIN_INFO_FIELD read fails; otherwise the default dict updated with
every constituent field, in the key order of
CMIS_XCVR_INFO_DEFAULT_DICT, returned as None when any dict value is
Python None and as the dict itself otherwise. -/
def get_transceiver_info (st : XcvrInfoRegs) : Option (List (String × XV)) :=
  match st.admin_info_read with
  | none => none
  | some admin_info =>
    let xcvr_info : List (String × XV) :=
      [("type", XV.s admin_info.id_field),
       ("type_abbrv_name", XV.s admin_info.id_abbrv),
       ("hardware_rev", XV.s (get_module_hardware_revision st.flat_mem_read
          st.hw_major_rev st.hw_minor_rev)),
       ("serial", XV.s (py_rstrip admin_info.vendor_serial)),
       ("manufacturer", XV.s (py_rstrip admin_info.vendor_name)),
       ("model", XV.s (py_rstrip admin_info.vendor_part)),
       ("connector", XV.s admin_info.connector),
       ("encoding", XV.s "N/A"),
       ("ext_identifier", XV.s (admin_info.power_class ++ " (" ++
          admin_info.max_power_str ++ "W Max)")),
       ("ext_rateselect_compliance", XV.s "N/A"),
       ("cable_length", XV.q admin_info.length_assembly),
       ("nominal_bit_rate", XV.s "N/A"),
       ("vendor_date", XV.s (py_rstrip admin_info.vendor_date)),
       ("vendor_oui", XV.s admin_info.vendor_oui)]
      ++ (List.range' 1 NUM_CHANNELS).map (fun lane =>
           ("active_apsel_hostlane" ++ toString lane, st.active_apsel_hostlane lane))
      ++ [("application_advertisement",
            XV.s (if st.appl_advert_count > 0 then st.appl_advert_str else "N/A")),
          ("host_electrical_interface", st.host_electrical_interface),
          ("media_interface_code", st.media_interface_code),
          ("host_lane_count", st.host_lane_count),
          ("media_lane_count", st.media_lane_count),
          ("host_lane_assignment_option", st.host_lane_assignment_option),
          ("media_lane_assignment_option", st.media_lane_assignment_option),
          ("cable_type", XV.s get_cable_length_type),
          ("media_interface_technology", st.media_interface_technology),
          ("vendor_rev",
            match st.vendor_rev_read with
            | none => XV.none'
            | some v => XV.s (py_rstrip (py_rstrip v))),
          ("cmis_rev", XV.s (get_cmis_rev st.cmis_major st.cmis_minor)),
          ("specification_compliance", st.module_media_type),
          ("vdm_supported", st.vdm_supported)]
    if xcvr_info.any (fun kv => kv.2 == XV.none') then none
    else some xcvr_info

/-- Register state refuting claim C1: every read succeeds except the
CMIS_MAJOR_REVISION and CMIS_MINOR_REVISION reads inside get_cmis_rev,
which return None. -/
def xcvr_info_cex : XcvrInfoRegs where
  admin_info_read := some
    ⟨"QSFP-DD", "QSFP_DD", "SN123", "ACME", "MODEL1", "LC", "Power Class 1",
     "1.5", 1, "210101", "00-00-00"⟩
  flat_mem_read := some false
  hw_major_rev := some 1
  hw_minor_rev := some 0
  cmis_major := none
  cmis_minor := none
  appl_advert_count := 0
  appl_advert_str := ""
  host_electrical_interface := XV.s "400GAUI-8 C2M (Annex 120E)"
  media_interface_code := XV.s "400GBASE-DR4 (Cl 124)"
  host_lane_count := XV.n 8
  media_lane_count := XV.n 4
  host_lane_assignment_option := XV.n 1
  media_lane_assignment_option := XV.n 1
  media_interface_technology := XV.s "1310 nm EML"
  vendor_rev_read := some "A1"
  module_media_type := XV.s "sm_media_interface"
  vdm_supported := XV.b true
  active_apsel_hostlane := fun _ => XV.n 1

/-- Claim C1, code-bug evaluation: on xcvr_info_cex the CMIS revision
read fails, which the claim says must make get_transceiver_info return
no result, yet the method returns a dictionary in which the failure has
been stringified into the value None.None under cmis_rev; the literal
failure sentinel is absent from the values, so the final None-in-values
guard does not catch it. -/
theorem claim_C1_cmis_read_failure_not_detected :
    xcvr_info_cex.cmis_major = none ∧
    Option.map (fun d => List.lookup "cmis_rev" d) (get_transceiver_info xcvr_info_cex) =
      some (some (XV.s "None.None")) ∧
    Option.map (fun d => d.any (fun kv => kv.2 == XV.none'))
      (get_transceiver_info xcvr_info_cex) = some false := by
  refine ⟨rfl, ?_, ?_⟩ <;> rfl

/-- Concrete instance of the amended claim C5: both banks valid at the
outset, bank A running before, bank B running after: the switch is
reported successful. -/
theorem claim_C5_witness :
    (module_fw_switch ⟨"1.0.0", 1, 1, 0, "2.0.0", 0, 0, 0⟩
      ⟨"1.0.0", 0, 1, 0, "2.0.0", 1, 0, 0⟩).1 = true :=
  (claim_C5_fw_switch ⟨"1.0.0", 1, 1, 0, "2.0.0", 0, 0, 0⟩
    ⟨"1.0.0", 0, 1, 0, "2.0.0", 1, 0, 0⟩).mpr (by decide)
